import Mathlib

/-!
# Achronyme Core — verification of the expression-evaluation kernel

A shallow embedding of the interpreter found under `src/wasm/src/` of the
achronyme-core repository: lexer (`parser/lexer.cpp`), recursive-descent
parser (`parser/parser.cpp`), the tagged value model (`core/value.cpp`,
`core/complex.cpp`, `core/vector.cpp`, `core/matrix.cpp`), the environment
(`parser/environment.hpp`), the tree-walking evaluator
(`parser/evaluator.cpp`), the registries (`core/constants.cpp`,
`core/functions.cpp`) and the higher-order builtins
(`core/functions_hof.cpp`), together with theorems settling the claims
about that code.

Modelling conventions:
* C++ `double` is embedded as an exact rational (the type `Q` below, a
  normalized numerator/denominator pair; a bespoke type is used so that
  every arithmetic operation reduces inside the kernel).  Every numeric
  value the claims exercise is exactly representable in binary64, so
  binary64 arithmetic on them agrees with exact rational arithmetic.
  `std::pow` with a non-integer exponent (and the transcendental complex
  power) cannot be represented exactly; the embedding returns a
  distinguished `[model]`-prefixed error in those cases, which no claim
  exercises.
* exceptions (`throw std::runtime_error(msg)`) are embedded as
  `Except String` with the exact message string thrown by the code;
* the mutable member `Evaluator::env_` is threaded explicitly: every
  evaluation step returns the environment it leaves behind, also on the
  error path, mirroring the fact that a C++ exception does not roll back
  member mutations;
* unbounded C++ recursion is embedded with a fuel parameter; fuel
  exhaustion yields a `[model]`-prefixed error that the C++ code never
  produces (the concrete inputs of the claims use ample fuel).
-/

deriving instance DecidableEq for Except

namespace Achronyme

/-- Single-quote character as a string, used to reproduce the exact C++
error-message strings such as `Variable 'x' already declared`. -/
def sq : String := ⟨[Char.ofNat 39]⟩

/-! ## Exact rationals standing in for C++ `double`

A normalized fraction: `d > 0` and `gcd |n| d = 1` hold for every value
built by the smart constructor `Q.mk'` and the arithmetic below, so
structural equality coincides with equality of rationals on such values
(which is what `==` on `double` means for the exactly-representable
numbers the claims use). -/

structure Q where
  n : Int
  d : Nat
  deriving DecidableEq, Repr

namespace Q

/-- Normalizing constructor for `num / den` (`den ≠ 0` at every use). -/
def mk' (num : Int) (den : Nat) : Q :=
  let g := Nat.gcd num.natAbs den
  if g = 0 then ⟨0, 0⟩ else ⟨num / (g : Int), den / g⟩

def ofNat (m : Nat) : Q := ⟨(m : Int), 1⟩

instance (m : Nat) : OfNat Q m := ⟨ofNat m⟩

protected def add (a b : Q) : Q := mk' (a.n * b.d + b.n * a.d) (a.d * b.d)
protected def sub (a b : Q) : Q := mk' (a.n * b.d - b.n * a.d) (a.d * b.d)
protected def mul (a b : Q) : Q := mk' (a.n * b.n) (a.d * b.d)
protected def neg (a : Q) : Q := ⟨-a.n, a.d⟩

/-- Exact division (used only after the code's own zero checks). -/
protected def div (a b : Q) : Q :=
  mk' (if b.n < 0 then -(a.n * b.d) else a.n * b.d) (a.d * b.n.natAbs)

instance : Add Q := ⟨Q.add⟩
instance : Sub Q := ⟨Q.sub⟩
instance : Mul Q := ⟨Q.mul⟩
instance : Neg Q := ⟨Q.neg⟩
instance : Div Q := ⟨Q.div⟩

/-- `a < b` as on binary64 (exact on representable values). -/
def blt (a b : Q) : Bool := a.n * b.d < b.n * a.d

/-- `a ≤ b`. -/
def ble (a b : Q) : Bool := a.n * b.d ≤ b.n * a.d

/-- Natural power (`x * x * …`). -/
def npow (a : Q) : Nat → Q
  | 0 => 1
  | m + 1 => npow a m * a

end Q

/-! ## Tokens (`parser/lexer.hpp`)

`TokenType` lists every token kind declared in `lexer.hpp` (the header
declares the Phase‑3/4A kinds `MODULO`, `ASSIGN`, comparison operators,
`ARROW`, brackets, `SEMICOLON` and the keyword `LET` even though
`lexer.cpp` never emits them — see the theorems on claim C1). -/

inductive TokenType where
  | number
  | identifier
  | letKw        -- LET
  | plus | minus | star | slash | caret | modulo | assign
  | gtTok | ltTok | gteTok | lteTok | eqTok | neqTok
  | arrow
  | lparen | rparen | lbracket | rbracket | comma | semicolon
  | endTok       -- END
  deriving DecidableEq, Repr

/-- `Token` (`lexer.hpp`): kind, original text, numeric payload, source
offset.  The two C++ constructors default `value` to `0.0`. -/
structure Token where
  type : TokenType
  lexeme : String
  value : Q
  position : Nat
  deriving DecidableEq, Repr

def mkTok (t : TokenType) (lexeme : String) (pos : Nat) : Token :=
  ⟨t, lexeme, 0, pos⟩

/-! ## Lexer (`parser/lexer.cpp`)

The lexer state `(source_, current_)` is embedded as the remaining
character list plus the current offset. -/

/-- C `isspace` (the characters the C locale treats as whitespace). -/
def isSpaceC (c : Char) : Bool :=
  c = ' ' || c = '\t' || c = '\n' || c = '\x0b' || c = '\x0c' || c = '\r'

/-- `Lexer::skipWhitespace`. -/
def skipWs : List Char → Nat → List Char × Nat
  | [], pos => ([], pos)
  | c :: rest, pos =>
    if isSpaceC c then skipWs rest (pos + 1) else (c :: rest, pos)

/-- Digit run consumed by `scanNumber`'s `while (isdigit(peek()))` loops;
returns the digits, the rest and the new offset. -/
def takeDigits : List Char → Nat → List Char × List Char × Nat
  | [], pos => ([], [], pos)
  | c :: rest, pos =>
    if c.isDigit then
      let (ds, rem, pos') := takeDigits rest (pos + 1)
      (c :: ds, rem, pos')
    else ([], c :: rest, pos)

/-- Numeric value of a digit string (what `std::stod` computes on the
grammar `scanNumber` collects, idealized to exact rationals). -/
def digitsVal (ds : List Char) : Nat :=
  ds.foldl (fun acc c => acc * 10 + (c.toNat - 48)) 0

/-- `Lexer::scanNumber`: integer part, optional `.`+digits (only when a
digit follows the dot), optional exponent `e`/`E` with optional sign.
`std::stod` on an empty collected string throws (`std::invalid_argument`);
that is the error case below. -/
def scanNumber (cs : List Char) (pos : Nat) :
    Except String (Token × List Char × Nat) :=
  let start := pos
  let (intDs, cs1, pos1) := takeDigits cs pos
  -- decimal part: if (peek == '.' && isdigit(peekNext))
  let (fracDs, cs2, pos2, hadDot) :=
    match cs1 with
    | '.' :: d :: rest =>
      if d.isDigit then
        let (ds, rem, p) := takeDigits (d :: rest) (pos1 + 1)
        (ds, rem, p, true)
      else ([], cs1, pos1, false)
    | _ => ([], cs1, pos1, false)
  -- scientific notation
  let (expSignNeg, expDs, cs3, pos3, hadExp, signStr) :=
    match cs2 with
    | e :: rest =>
      if e = 'e' || e = 'E' then
        match rest with
        | s :: rest2 =>
          if s = '+' || s = '-' then
            let (ds, rem, p) := takeDigits rest2 (pos2 + 2)
            (s == '-', ds, rem, p, true, String.mk [s])
          else
            let (ds, rem, p) := takeDigits rest (pos2 + 1)
            (false, ds, rem, p, true, "")
        | [] => (false, ([] : List Char), ([] : List Char), pos2 + 1, true, "")
      else (false, [], cs2, pos2, false, "")
    | [] => (false, [], [], pos2, false, "")
  if intDs.isEmpty ∧ ¬hadDot then
    -- numStr is empty (a lone '.' not followed by a digit): stod throws
    .error "[model] std::stod: invalid number"
  else
    let mantissa : Q :=
      Q.mk' (Int.ofNat (digitsVal intDs * 10 ^ fracDs.length + digitsVal fracDs))
        (10 ^ fracDs.length)
    let tenPow : Q := Q.ofNat (10 ^ digitsVal expDs)
    let value : Q := if expSignNeg then mantissa / tenPow else mantissa * tenPow
    let lexeme := String.mk intDs ++ (if hadDot then "." ++ String.mk fracDs else "")
      ++ (if hadExp then "e" ++ signStr ++ String.mk expDs else "")
    .ok (⟨.number, lexeme, value, start⟩, cs3, pos3)

/-- `Lexer::scanOperator` — the only operator characters `lexer.cpp`
handles are `+ - * / ^ ( ) ,`. -/
def scanOperator (c : Char) (pos : Nat) : Except String Token :=
  if c = '+' then .ok (mkTok .plus "+" pos)
  else if c = '-' then .ok (mkTok .minus "-" pos)
  else if c = '*' then .ok (mkTok .star "*" pos)
  else if c = '/' then .ok (mkTok .slash "/" pos)
  else if c = '^' then .ok (mkTok .caret "^" pos)
  else if c = '(' then .ok (mkTok .lparen "(" pos)
  else if c = ')' then .ok (mkTok .rparen ")" pos)
  else if c = ',' then .ok (mkTok .comma "," pos)
  else .error ("Unknown operator: " ++ c.toString)

/-- Identifier run: `while (isalnum(peek()) || peek == '_')`. -/
def takeIdent : List Char → Nat → List Char × List Char × Nat
  | [], pos => ([], [], pos)
  | c :: rest, pos =>
    if c.isAlphanum || c = '_' then
      let (ds, rem, pos') := takeIdent rest (pos + 1)
      (c :: ds, rem, pos')
    else ([], c :: rest, pos)

/-- `Lexer::scanIdentifier` (always produces `IDENTIFIER`; `lexer.cpp`
never emits the `LET` keyword token). -/
def scanIdentifier (cs : List Char) (pos : Nat) : Token × List Char × Nat :=
  let (ds, rem, pos') := takeIdent cs pos
  (mkTok .identifier (String.mk ds) pos, rem, pos')

/-- The dispatch loop of `Lexer::tokenize`.  Fuel only bounds the number
of loop iterations; each iteration of the C++ loop consumes at least one
character or throws, so `length + 1` fuel always suffices. -/
def tokenizeLoop : Nat → List Char → Nat → Except String (List Token)
  | 0, _, _ => .error "[model] lexer fuel exhausted"
  | n + 1, cs, pos =>
    let (cs1, pos1) := skipWs cs pos
    match cs1 with
    | [] => .ok [mkTok .endTok "" pos1]
    | c :: rest =>
      if c.isDigit || c = '.' then
        match scanNumber (c :: rest) pos1 with
        | .error e => .error e
        | .ok (t, cs2, pos2) =>
          match tokenizeLoop n cs2 pos2 with
          | .error e => .error e
          | .ok ts => .ok (t :: ts)
      else if c.isAlpha || c = '_' then
        let (t, cs2, pos2) := scanIdentifier (c :: rest) pos1
        match tokenizeLoop n cs2 pos2 with
        | .error e => .error e
        | .ok ts => .ok (t :: ts)
      else if c = '+' || c = '-' || c = '*' || c = '/' || c = '^' ||
              c = '(' || c = ')' || c = ',' then
        match scanOperator c pos1 with
        | .error e => .error e
        | .ok t =>
          match tokenizeLoop n rest (pos1 + 1) with
          | .error e => .error e
          | .ok ts => .ok (t :: ts)
      else
        .error ("Unexpected character: " ++ c.toString)

/-- `Lexer::tokenize` on a source string. -/
def tokenize (source : String) : Except String (List Token) :=
  tokenizeLoop (source.length + 1) source.toList 0

namespace LexerSpec

/-!
Modelled from the spec: `lexer.cpp` as shipped scans only `+ - * / ^ ( ) ,`
(and numbers/identifiers), although `lexer.hpp` declares the Phase‑3/4A
token kinds (`LET`, `MODULO`, `ASSIGN`, `GT/LT/GTE/LTE/EQ/NEQ`, `ARROW`,
`LBRACKET/RBRACKET`, `SEMICOLON`) and `parser.cpp` consumes them.  The
scanning of those declared tokens is therefore modelled here from the
spec §4.1 ("Operators/delimiters recognized as single- or
double-character tokens: `+ - * / ^ % = > < >= <= == != => ( ) [ ] , ;`",
"Whitespace is skipped", "Always terminates with an explicit end-of-input
token") together with the declarations in `lexer.hpp`.  It is used only to
exercise the parser/evaluator on the spec's session and HOF examples. -/

/-- Modelled from the spec: maximal-munch scan of the single- or
double-character operators of §4.1 (the characters handled by the shipped
`scanOperator` behave identically there). -/
def scanOperatorFull : List Char → Nat →
    Except String (Token × List Char × Nat)
  | [], _ => .error "[model] scanOperatorFull on empty input"
  | c :: rest, pos =>
    if c = '+' then .ok (mkTok .plus "+" pos, rest, pos + 1)
    else if c = '-' then .ok (mkTok .minus "-" pos, rest, pos + 1)
    else if c = '*' then .ok (mkTok .star "*" pos, rest, pos + 1)
    else if c = '/' then .ok (mkTok .slash "/" pos, rest, pos + 1)
    else if c = '^' then .ok (mkTok .caret "^" pos, rest, pos + 1)
    else if c = '%' then .ok (mkTok .modulo "%" pos, rest, pos + 1)
    else if c = '(' then .ok (mkTok .lparen "(" pos, rest, pos + 1)
    else if c = ')' then .ok (mkTok .rparen ")" pos, rest, pos + 1)
    else if c = '[' then .ok (mkTok .lbracket "[" pos, rest, pos + 1)
    else if c = ']' then .ok (mkTok .rbracket "]" pos, rest, pos + 1)
    else if c = ',' then .ok (mkTok .comma "," pos, rest, pos + 1)
    else if c = ';' then .ok (mkTok .semicolon ";" pos, rest, pos + 1)
    else if c = '=' then
      match rest with
      | '=' :: rest2 => .ok (mkTok .eqTok "==" pos, rest2, pos + 2)
      | '>' :: rest2 => .ok (mkTok .arrow "=>" pos, rest2, pos + 2)
      | _ => .ok (mkTok .assign "=" pos, rest, pos + 1)
    else if c = '>' then
      match rest with
      | '=' :: rest2 => .ok (mkTok .gteTok ">=" pos, rest2, pos + 2)
      | _ => .ok (mkTok .gtTok ">" pos, rest, pos + 1)
    else if c = '<' then
      match rest with
      | '=' :: rest2 => .ok (mkTok .lteTok "<=" pos, rest2, pos + 2)
      | _ => .ok (mkTok .ltTok "<" pos, rest, pos + 1)
    else if c = '!' then
      match rest with
      | '=' :: rest2 => .ok (mkTok .neqTok "!=" pos, rest2, pos + 2)
      | _ => .error ("Unexpected character: " ++ c.toString)
    else .error ("Unexpected character: " ++ c.toString)

/-- Modelled from the spec: identifier scan with the `let` keyword
(`lexer.hpp` declares `LET // let (variable declaration)` under
"Keywords (Phase 4A)"). -/
def scanIdentifierFull (cs : List Char) (pos : Nat) : Token × List Char × Nat :=
  let (ds, rem, pos') := takeIdent cs pos
  let name := String.mk ds
  if name = "let" then (mkTok .letKw "let" pos, rem, pos')
  else (mkTok .identifier name pos, rem, pos')

/-- Modelled from the spec: the dispatch loop of §4.1 over the full token
set; numbers and identifiers are scanned exactly as in `lexer.cpp`. -/
def tokenizeLoopFull : Nat → List Char → Nat → Except String (List Token)
  | 0, _, _ => .error "[model] lexer fuel exhausted"
  | n + 1, cs, pos =>
    let (cs1, pos1) := skipWs cs pos
    match cs1 with
    | [] => .ok [mkTok .endTok "" pos1]
    | c :: rest =>
      if c.isDigit || c = '.' then
        match scanNumber (c :: rest) pos1 with
        | .error e => .error e
        | .ok (t, cs2, pos2) =>
          match tokenizeLoopFull n cs2 pos2 with
          | .error e => .error e
          | .ok ts => .ok (t :: ts)
      else if c.isAlpha || c = '_' then
        let (t, cs2, pos2) := scanIdentifierFull (c :: rest) pos1
        match tokenizeLoopFull n cs2 pos2 with
        | .error e => .error e
        | .ok ts => .ok (t :: ts)
      else
        match scanOperatorFull (c :: rest) pos1 with
        | .error e => .error e
        | .ok (t, cs2, pos2) =>
          match tokenizeLoopFull n cs2 pos2 with
          | .error e => .error e
          | .ok ts => .ok (t :: ts)

/-- Modelled from the spec: `tokenize` over the full §4.1 token set. -/
def tokenizeFull (source : String) : Except String (List Token) :=
  tokenizeLoopFull (source.length + 1) source.toList 0

end LexerSpec

/-! ## AST (`parser/ast.hpp`, spec §3)

`ast.hpp` as shipped declares `NumberNode`, `BinaryOpNode`, `UnaryOpNode`,
`FunctionCallNode`, `ComplexLiteralNode`, `VectorLiteralNode` and
`MatrixLiteralNode`, with `BinaryOp ∈ {ADD,SUBTRACT,MULTIPLY,DIVIDE,POWER}`.
The Phase‑4A node classes used by `parser.cpp` and `evaluator.cpp`
(`VariableDeclarationNode`, `VariableReferenceNode`, `LambdaNode`) and the
comparison members of `BinaryOp` are absent from the shipped header and are
modelled from the spec §3 data model, which lists
`VariableDeclaration(name, initializer)`, `VariableReference(name)`,
`Lambda(params, body)` and `BinaryOp ∋ Gt, Lt, Gte, Lte, Eq, Neq`. -/

inductive BinOp where
  | add | subtract | multiply | divide | power
  | gt | lt | gte | lte | eqOp | neqOp
  deriving DecidableEq, Repr

inductive UnOp where
  | negate
  deriving DecidableEq, Repr

inductive AST where
  | number (value : Q)
  | binary (op : BinOp) (left right : AST)
  | unary (op : UnOp) (operand : AST)
  | call (name : String) (args : List AST)
  | complexLit (re im : Q)
  | vectorLit (elems : List AST)
  | matrixLit (rows : List (List AST))
  | varDecl (name : String) (init : AST)
  | varRef (name : String)
  | lambda (params : List String) (body : AST)
  deriving Repr

/-! ## Parser (`parser/parser.cpp`)

The parser state `(tokens_, current_)` is embedded as the token list plus
an index; each parsing function returns the parsed node and the new index.
The C++ functions recurse without bound (`expression` inside
parentheses), so each embedded function takes fuel and passes one less to
every callee; `parse` supplies ample fuel. -/

/-- `Parser::peek` (`tokenize` always appends `END`, so the default is
never consulted on lexer output). -/
def peekT (tk : List Token) (pos : Nat) : Token :=
  tk.getD pos (mkTok .endTok "" 0)

/-- `Parser::check`: false at `END`, else compares the token type. -/
def checkT (tk : List Token) (pos : Nat) (ty : TokenType) : Bool :=
  if (peekT tk pos).type = .endTok then false else (peekT tk pos).type = ty

/-- `Parser::consume`. -/
def consumeT (tk : List Token) (pos : Nat) (ty : TokenType) (msg : String) :
    Except String Nat :=
  if checkT tk pos ty then .ok (pos + 1) else .error msg

/-- The speculative lambda-parameter scan of `Parser::primary`
(`(x, y) => …` lookahead): `pos` is just after `(` and an identifier has
been seen there; returns the parameters and the position after `=>` on
success, `none` when the parser must rewind to `savedPos` and re-parse as
a parenthesized expression. -/
def tryParamsLoop : Nat → List Token → Nat → List String →
    Option (List String × Nat)
  | 0, _, _, _ => none
  | n + 1, tk, pos, params =>
    if checkT tk pos .comma then
      let pos1 := pos + 1
      if checkT tk pos1 .identifier then
        tryParamsLoop n tk (pos1 + 1) (params ++ [(peekT tk pos1).lexeme])
      else none
    else
      if checkT tk pos .rparen ∧ checkT tk (pos + 1) .arrow then
        some (params, pos + 2)
      else none

def tryParams (tk : List Token) (pos : Nat) : Option (List String × Nat) :=
  if checkT tk pos .identifier then
    tryParamsLoop (tk.length + 1) tk (pos + 1) [(peekT tk pos).lexeme]
  else none

/-- First mismatched row of a matrix literal (`Parser::parseVectorOrMatrix`
row-length validation), with its index. -/
def findRowMismatch (cols0 : Nat) : List (List AST) → Nat → Option (Nat × Nat)
  | [], _ => none
  | r :: rest, i =>
    if r.length ≠ cols0 then some (i, r.length)
    else findRowMismatch cols0 rest (i + 1)

/-- `parseVectorOrMatrix`'s validation that all rows have equal length. -/
def validateRows (rows : List (List AST)) : Except String AST :=
  match rows with
  | [] => .ok (.matrixLit [])
  | r0 :: rest =>
    match findRowMismatch r0.length rest 1 with
    | none => .ok (.matrixLit rows)
    | some (i, len) =>
      .error ("Matrix rows must have the same number of elements. Row 0 has "
        ++ toString r0.length ++ " elements, but row " ++ toString i
        ++ " has " ++ toString len ++ " elements.")

mutual

/-- `Parser::statement`. -/
def pStatement : Nat → List Token → Nat → Except String (AST × Nat)
  | 0, _, _ => .error "[model] parser fuel exhausted"
  | n + 1, tk, pos =>
    if checkT tk pos .letKw then
      let pos1 := pos + 1
      if ¬checkT tk pos1 .identifier then
        .error ("Expected variable name after " ++ sq ++ "let" ++ sq)
      else
        let name := (peekT tk pos1).lexeme
        match consumeT tk (pos1 + 1) .assign
            ("Expected " ++ sq ++ "=" ++ sq ++ " after variable name") with
        | .error e => .error e
        | .ok pos2 =>
          match pExpression n tk pos2 with
          | .error e => .error e
          | .ok (init, pos3) => .ok (.varDecl name init, pos3)
    else pExpression n tk pos
termination_by structural n tk pos => n

/-- `Parser::expression`. -/
def pExpression : Nat → List Token → Nat → Except String (AST × Nat)
  | 0, _, _ => .error "[model] parser fuel exhausted"
  | n + 1, tk, pos => pComparison n tk pos
termination_by structural n tk pos => n

/-- `Parser::comparison`. -/
def pComparison : Nat → List Token → Nat → Except String (AST × Nat)
  | 0, _, _ => .error "[model] parser fuel exhausted"
  | n + 1, tk, pos =>
    match pAdditive n tk pos with
    | .error e => .error e
    | .ok (node, pos1) => pComparisonLoop n tk node pos1
termination_by structural n tk pos => n

/-- The `while (match(GT) || …)` loop of `Parser::comparison`. -/
def pComparisonLoop : Nat → List Token → AST → Nat → Except String (AST × Nat)
  | 0, _, _, _ => .error "[model] parser fuel exhausted"
  | n + 1, tk, node, pos =>
    let step (op : BinOp) : Except String (AST × Nat) :=
      match pAdditive n tk (pos + 1) with
      | .error e => .error e
      | .ok (right, pos1) => pComparisonLoop n tk (.binary op node right) pos1
    if checkT tk pos .gtTok then step .gt
    else if checkT tk pos .ltTok then step .lt
    else if checkT tk pos .gteTok then step .gte
    else if checkT tk pos .lteTok then step .lte
    else if checkT tk pos .eqTok then step .eqOp
    else if checkT tk pos .neqTok then step .neqOp
    else .ok (node, pos)
termination_by structural n tk node pos => n

/-- `Parser::additive`. -/
def pAdditive : Nat → List Token → Nat → Except String (AST × Nat)
  | 0, _, _ => .error "[model] parser fuel exhausted"
  | n + 1, tk, pos =>
    match pTerm n tk pos with
    | .error e => .error e
    | .ok (node, pos1) => pAdditiveLoop n tk node pos1
termination_by structural n tk pos => n

/-- The `while (match(PLUS) || match(MINUS))` loop of `Parser::additive`. -/
def pAdditiveLoop : Nat → List Token → AST → Nat → Except String (AST × Nat)
  | 0, _, _, _ => .error "[model] parser fuel exhausted"
  | n + 1, tk, node, pos =>
    let step (op : BinOp) : Except String (AST × Nat) :=
      match pTerm n tk (pos + 1) with
      | .error e => .error e
      | .ok (right, pos1) => pAdditiveLoop n tk (.binary op node right) pos1
    if checkT tk pos .plus then step .add
    else if checkT tk pos .minus then step .subtract
    else .ok (node, pos)
termination_by structural n tk node pos => n

/-- `Parser::term`. -/
def pTerm : Nat → List Token → Nat → Except String (AST × Nat)
  | 0, _, _ => .error "[model] parser fuel exhausted"
  | n + 1, tk, pos =>
    match pFactor n tk pos with
    | .error e => .error e
    | .ok (node, pos1) => pTermLoop n tk node pos1
termination_by structural n tk pos => n

/-- The `while (match(STAR) || match(SLASH))` loop of `Parser::term`. -/
def pTermLoop : Nat → List Token → AST → Nat → Except String (AST × Nat)
  | 0, _, _, _ => .error "[model] parser fuel exhausted"
  | n + 1, tk, node, pos =>
    let step (op : BinOp) : Except String (AST × Nat) :=
      match pFactor n tk (pos + 1) with
      | .error e => .error e
      | .ok (right, pos1) => pTermLoop n tk (.binary op node right) pos1
    if checkT tk pos .star then step .multiply
    else if checkT tk pos .slash then step .divide
    else .ok (node, pos)
termination_by structural n tk node pos => n

/-- `Parser::factor` (right-associative `^` via the recursive call). -/
def pFactor : Nat → List Token → Nat → Except String (AST × Nat)
  | 0, _, _ => .error "[model] parser fuel exhausted"
  | n + 1, tk, pos =>
    match pExponent n tk pos with
    | .error e => .error e
    | .ok (node, pos1) =>
      if checkT tk pos1 .caret then
        match pFactor n tk (pos1 + 1) with
        | .error e => .error e
        | .ok (right, pos2) => .ok (.binary .power node right, pos2)
      else .ok (node, pos1)
termination_by structural n tk pos => n

/-- `Parser::exponent` (unary minus; recursive so `--5` nests). -/
def pExponent : Nat → List Token → Nat → Except String (AST × Nat)
  | 0, _, _ => .error "[model] parser fuel exhausted"
  | n + 1, tk, pos =>
    if checkT tk pos .minus then
      match pExponent n tk (pos + 1) with
      | .error e => .error e
      | .ok (operand, pos1) => .ok (.unary .negate operand, pos1)
    else pPrimary n tk pos
termination_by structural n tk pos => n

/-- `Parser::primary`. -/
def pPrimary : Nat → List Token → Nat → Except String (AST × Nat)
  | 0, _, _ => .error "[model] parser fuel exhausted"
  | n + 1, tk, pos =>
    if checkT tk pos .number then
      let t := peekT tk pos
      let pos1 := pos + 1
      -- if (match(IDENTIFIER) && previous().lexeme == "i"): the identifier
      -- is consumed by `match` even when its lexeme is not "i"
      if checkT tk pos1 .identifier then
        let t2 := peekT tk pos1
        let pos2 := pos1 + 1
        if t2.lexeme = "i" then .ok (.complexLit 0 t.value, pos2)
        else .ok (.number t.value, pos2)
      else .ok (.number t.value, pos1)
    else if checkT tk pos .identifier then
      let name := (peekT tk pos).lexeme
      let pos1 := pos + 1
      if name = "i" then .ok (.complexLit 0 1, pos1)
      else if checkT tk pos1 .arrow then
        match pExpression n tk (pos1 + 1) with
        | .error e => .error e
        | .ok (body, pos2) => .ok (.lambda [name] body, pos2)
      else if checkT tk pos1 .lparen then pFunctionCall n name tk pos1
      else .ok (.varRef name, pos1)   -- Parser::parseConstant
    else if checkT tk pos .lparen then
      let saved := pos + 1
      match tryParams tk saved with
      | some (params, pos1) =>
        match pExpression n tk pos1 with
        | .error e => .error e
        | .ok (body, pos2) => .ok (.lambda params body, pos2)
      | none =>
        match pExpression n tk saved with
        | .error e => .error e
        | .ok (node, pos1) =>
          match consumeT tk pos1 .rparen
              ("Expected " ++ sq ++ ")" ++ sq ++ " after expression") with
          | .error e => .error e
          | .ok pos2 =>
            -- if (match(IDENTIFIER) && previous().lexeme == "i") throw …
            if checkT tk pos2 .identifier then
              let lex := (peekT tk pos2).lexeme
              if lex = "i" then
                .error "Complex syntax (expr)i not yet fully supported. Use expr * i instead."
              else .ok (node, pos2 + 1)
            else .ok (node, pos2)
    else if checkT tk pos .lbracket then pVectorOrMatrix n tk (pos + 1)
    else .error "Expected expression"
termination_by structural n tk pos => n

/-- `Parser::parseFunctionCall` (`pos` is at the `(`). -/
def pFunctionCall : Nat → String → List Token → Nat → Except String (AST × Nat)
  | 0, _, _, _ => .error "[model] parser fuel exhausted"
  | n + 1, name, tk, pos =>
    match consumeT tk pos .lparen
        ("Expected " ++ sq ++ "(" ++ sq ++ " after function name") with
    | .error e => .error e
    | .ok pos1 =>
      if ¬checkT tk pos1 .rparen then
        match pExprList n tk pos1 [] with
        | .error e => .error e
        | .ok (args, pos2) =>
          match consumeT tk pos2 .rparen
              ("Expected " ++ sq ++ ")" ++ sq ++ " after arguments") with
          | .error e => .error e
          | .ok pos3 => .ok (.call name args, pos3)
      else .ok (.call name [], pos1 + 1)
termination_by structural n name tk pos => n

/-- The `do { expression() } while (match(COMMA))` loops shared by argument
lists, vector elements and matrix-row elements. -/
def pExprList : Nat → List Token → Nat → List AST →
    Except String (List AST × Nat)
  | 0, _, _, _ => .error "[model] parser fuel exhausted"
  | n + 1, tk, pos, acc =>
    match pExpression n tk pos with
    | .error e => .error e
    | .ok (a, pos1) =>
      if checkT tk pos1 .comma then pExprList n tk (pos1 + 1) (acc ++ [a])
      else .ok (acc ++ [a], pos1)
termination_by structural n tk pos acc => n

/-- `Parser::parseVectorOrMatrix` (`pos` is just after the first `[`). -/
def pVectorOrMatrix : Nat → List Token → Nat → Except String (AST × Nat)
  | 0, _, _ => .error "[model] parser fuel exhausted"
  | n + 1, tk, pos =>
    if checkT tk pos .lbracket then pMatrixRows n tk pos []
    else
      if ¬checkT tk pos .rbracket then
        match pExprList n tk pos [] with
        | .error e => .error e
        | .ok (elems, pos1) =>
          match consumeT tk pos1 .rbracket
              ("Expected " ++ sq ++ "]" ++ sq ++ " after vector") with
          | .error e => .error e
          | .ok pos2 => .ok (.vectorLit elems, pos2)
      else .ok (.vectorLit [], pos + 1)
termination_by structural n tk pos => n

/-- The matrix-row `do … while (match(COMMA))` loop of
`parseVectorOrMatrix`, ending with the row-length validation. -/
def pMatrixRows : Nat → List Token → Nat → List (List AST) →
    Except String (AST × Nat)
  | 0, _, _, _ => .error "[model] parser fuel exhausted"
  | n + 1, tk, pos, rows =>
    match consumeT tk pos .lbracket
        ("Expected " ++ sq ++ "[" ++ sq ++ " for matrix row") with
    | .error e => .error e
    | .ok pos1 =>
      let rowRes : Except String (List AST × Nat) :=
        if ¬checkT tk pos1 .rbracket then pExprList n tk pos1 []
        else .ok ([], pos1)
      match rowRes with
      | .error e => .error e
      | .ok (row, pos2) =>
        match consumeT tk pos2 .rbracket
            ("Expected " ++ sq ++ "]" ++ sq ++ " after matrix row") with
        | .error e => .error e
        | .ok pos3 =>
          let rows1 := rows ++ [row]
          if checkT tk pos3 .comma then pMatrixRows n tk (pos3 + 1) rows1
          else
            match consumeT tk pos3 .rbracket
                ("Expected " ++ sq ++ "]" ++ sq ++ " after matrix") with
            | .error e => .error e
            | .ok pos4 =>
              match validateRows rows1 with
              | .error e => .error e
              | .ok node => .ok (node, pos4)
termination_by structural n tk pos rows => n

end

/-- `Parser::parse` (= `statement()`; note it does not require the token
stream to be fully consumed). -/
def parse (tk : List Token) : Except String AST :=
  match pStatement (10 * tk.length + 100) tk 0 with
  | .error e => .error e
  | .ok (node, _) => .ok node

/-! ## Values (`core/value.hpp/.cpp`, `core/complex.cpp`, `core/vector.cpp`,
`core/matrix.cpp`, `core/function.hpp`)

`Value` is the tagged union `Number | Complex | Vector | Matrix | Function`;
a `Function` is parameter names + AST body + captured environment
(`function.hpp`; the environment type makes this a nested inductive). -/

inductive Value where
  | num (x : Q)
  | complex (re im : Q)
  | vector (elems : List Q)
  | matrix (rows cols : Nat) (data : List Q)
  | func (params : List String) (body : AST) (closure : List (String × Value))

/-- The environment (`environment.hpp`): an `unordered_map<string, Value>`
embedded as an association list with unique keys (`define` refuses
duplicates, so insertion order never matters). -/
abbrev Env := List (String × Value)

def Value.isNumber : Value → Bool
  | .num _ => true
  | _ => false

def Value.isComplex : Value → Bool
  | .complex _ _ => true
  | _ => false

def Value.isVector : Value → Bool
  | .vector _ => true
  | _ => false

def Value.isMatrix : Value → Bool
  | .matrix _ _ _ => true
  | _ => false

def Value.isFunction : Value → Bool
  | .func _ _ _ => true
  | _ => false

/-- `Value::asNumber` (throws on the wrong kind). -/
def Value.asNumber : Value → Except String Q
  | .num x => .ok x
  | _ => .error "Value is not a number"

/-- `Value::asVector`. -/
def Value.asVector : Value → Except String (List Q)
  | .vector v => .ok v
  | _ => .error "Value is not a vector"

/-- `Value::toComplex` (promotes a Number; only ever applied to
Number/Complex operands). -/
def Value.toComplex : Value → Q × Q
  | .complex re im => (re, im)
  | .num x => (x, 0)
  | _ => (0, 0)   -- unreachable: callers test isNumber/isComplex first

/-- `Complex::operator/` — errors at a zero denominator. -/
def complexDiv (ar ai br bi : Q) : Except String Value :=
  let denom := br * br + bi * bi
  if denom = 0 then .error "Division by zero in complex division"
  else .ok (.complex ((ar * br + ai * bi) / denom) ((ai * br - ar * bi) / denom))

/-- `Complex::pow` (`z^w = exp(w log z)`): only the exact special cases
`0^0 = 1` and `0^w = 0` are representable; the transcendental general case
is outside the embedding (no claim exercises it). -/
def complexPow (ar ai br bi : Q) : Except String Value :=
  if ar = 0 ∧ ai = 0 ∧ br = 0 ∧ bi = 0 then .ok (.complex 1 0)
  else if ar = 0 ∧ ai = 0 then .ok (.complex 0 0)
  else .error "[model] complex power: transcendental result not representable"

/-- `std::pow` on doubles, exact cases: an integer exponent (with a
nonzero base when the exponent is negative).  The remaining cases round
(or return `inf`) in binary64 and are outside the embedding; no claim
exercises them. -/
def numPow (a b : Q) : Except String Q :=
  if b.d = 1 then
    if 0 ≤ b.n then .ok (a.npow b.n.natAbs)
    else if a = 0 then .error "[model] pow: infinite result not representable"
    else .ok ((1 : Q) / a.npow b.n.natAbs)
  else .error "[model] pow: non-integer exponent not representable"

/-- `Vector::checkSameSize`'s error message. -/
def vecMismatchMsg (m k : Nat) : String :=
  "Vector dimension mismatch: " ++ toString m ++ " vs " ++ toString k

/-- `Value::operator+` (`value.cpp` lines 69–129): the dispatch cascade in
source order. -/
def valueAdd (a b : Value) : Except String Value :=
  match a, b with
  | .num x, .num y => .ok (.num (x + y))
  | .num x, .complex br bi => .ok (.complex (x + br) (0 + bi))
  | .complex ar ai, .num y => .ok (.complex (ar + y) (ai + 0))
  | .complex ar ai, .complex br bi => .ok (.complex (ar + br) (ai + bi))
  | .vector v, .vector w =>
    if v.length ≠ w.length then .error (vecMismatchMsg v.length w.length)
    else .ok (.vector (List.zipWith (· + ·) v w))
  | .matrix r c d, .matrix r' c' d' =>
    if r ≠ r' ∨ c ≠ c' then
      .error ("Matrix dimension mismatch: (" ++ toString r ++ "x" ++ toString c
        ++ ") vs (" ++ toString r' ++ "x" ++ toString c' ++ ")")
    else .ok (.matrix r c (List.zipWith (· + ·) d d'))
  | .num x, .vector v => .ok (.vector (v.map (· + x)))
  | .vector v, .num y => .ok (.vector (v.map (· + y)))
  | .num x, .matrix r c d => .ok (.matrix r c (d.map (· + x)))
  | .matrix r c d, .num y => .ok (.matrix r c (d.map (· + y)))
  | _, _ => .error "Incompatible types for addition"

/-- `Value::operator-` (`value.cpp` lines 132–173): note the cascade has
scalar/vector broadcasts but — unlike `operator+` — no scalar/matrix
case, so Number−Matrix and Matrix−Number fall through to the type error. -/
def valueSub (a b : Value) : Except String Value :=
  match a, b with
  | .num x, .num y => .ok (.num (x - y))
  | .num x, .complex br bi => .ok (.complex (x - br) (0 - bi))
  | .complex ar ai, .num y => .ok (.complex (ar - y) (ai - 0))
  | .complex ar ai, .complex br bi => .ok (.complex (ar - br) (ai - bi))
  | .vector v, .vector w =>
    if v.length ≠ w.length then .error (vecMismatchMsg v.length w.length)
    else .ok (.vector (List.zipWith (· - ·) v w))
  | .matrix r c d, .matrix r' c' d' =>
    if r ≠ r' ∨ c ≠ c' then
      .error ("Matrix dimension mismatch: (" ++ toString r ++ "x" ++ toString c
        ++ ") vs (" ++ toString r' ++ "x" ++ toString c' ++ ")")
    else .ok (.matrix r c (List.zipWith (· - ·) d d'))
  | .num x, .vector v => .ok (.vector (v.map (x - ·)))
  | .vector v, .num y => .ok (.vector (v.map (· - y)))
  | _, _ => .error "Incompatible types for subtraction"

/-- Matrix product (`Matrix::operator*`, row-major). -/
def matMulData (r c c' : Nat) (d d' : List Q) : List Q :=
  (List.range r).flatMap fun i =>
    (List.range c').map fun j =>
      (List.range c).foldl
        (fun sum k => sum + d.getD (i * c + k) 0 * d'.getD (k * c' + j) 0) 0

/-- `Value::operator*` (`value.cpp` lines 176–211). -/
def valueMul (a b : Value) : Except String Value :=
  match a, b with
  | .num x, .num y => .ok (.num (x * y))
  | .num x, .complex br bi => .ok (.complex (x * br - 0 * bi) (x * bi + 0 * br))
  | .complex ar ai, .num y => .ok (.complex (ar * y - ai * 0) (ar * 0 + ai * y))
  | .complex ar ai, .complex br bi =>
    .ok (.complex (ar * br - ai * bi) (ar * bi + ai * br))
  | .vector v, .num y => .ok (.vector (v.map (· * y)))
  | .num x, .vector v => .ok (.vector (v.map (· * x)))
  | .matrix r c d, .num y => .ok (.matrix r c (d.map (· * y)))
  | .num x, .matrix r c d => .ok (.matrix r c (d.map (· * x)))
  | .matrix r c d, .matrix r' c' d' =>
    if c ≠ r' then
      .error ("Cannot multiply matrices: columns of first (" ++ toString c
        ++ ") != rows of second (" ++ toString r' ++ ")")
    else .ok (.matrix r c' (matMulData r c c' d d'))
  | _, _ => .error "Incompatible types for multiplication"

/-- `Value::operator/` (`value.cpp` lines 214–239).  `Vector::operator/`
and `Matrix::operator/` check the scalar for zero and then multiply by its
reciprocal. -/
def valueDiv (a b : Value) : Except String Value :=
  match a, b with
  | .num x, .num y =>
    if y = 0 then .error "Division by zero" else .ok (.num (x / y))
  | .num x, .complex br bi => complexDiv x 0 br bi
  | .complex ar ai, .num y => complexDiv ar ai y 0
  | .complex ar ai, .complex br bi => complexDiv ar ai br bi
  | .vector v, .num y =>
    if y = 0 then .error "Division by zero in vector division"
    else .ok (.vector (v.map (· * ((1 : Q) / y))))
  | .matrix r c d, .num y =>
    if y = 0 then .error "Division by zero in matrix division"
    else .ok (.matrix r c (d.map (· * ((1 : Q) / y))))
  | _, _ => .error "Incompatible types for division"

/-- `Value::operator-` unary (`value.cpp` lines 242–256); `-v` and `-A`
multiply by `-1.0`. -/
def valueNeg (a : Value) : Except String Value :=
  match a with
  | .num x => .ok (.num (-x))
  | .complex re im => .ok (.complex (-re) (-im))
  | .vector v => .ok (.vector (v.map (· * (-1 : Q))))
  | .matrix r c d => .ok (.matrix r c (d.map (· * (-1 : Q))))
  | .func _ _ _ => .error "Unary minus not supported for this type"

/-- `Value::pow` (`value.cpp` lines 259–271). -/
def valuePow (a b : Value) : Except String Value :=
  match a, b with
  | .num x, .num y =>
    match numPow x y with
    | .error e => .error e
    | .ok z => .ok (.num z)
  | .num x, .complex br bi => complexPow x 0 br bi
  | .complex ar ai, .num y => complexPow ar ai y 0
  | .complex ar ai, .complex br bi => complexPow ar ai br bi
  | _, _ => .error "Incompatible types for power operation"

/-! ## Environment operations (`parser/environment.hpp`) -/

def envLookup : Env → String → Option Value
  | [], _ => none
  | (k, v) :: rest, name => if k = name then some v else envLookup rest name

/-- `Environment::has`. -/
def envHas (env : Env) (name : String) : Bool :=
  (envLookup env name).isSome

/-- `Environment::define`: refuses an already-declared name. -/
def envDefine (env : Env) (name : String) (v : Value) : Except String Env :=
  if envHas env name then
    .error ("Variable " ++ sq ++ name ++ sq ++ " already declared")
  else .ok ((name, v) :: env)

/-- `Environment::get`. -/
def envGet (env : Env) (name : String) : Except String Value :=
  match envLookup env name with
  | some v => .ok v
  | none => .error ("Undefined variable " ++ sq ++ name ++ sq)

/-! ## Registries (`core/constants.cpp`, `core/functions.cpp`) -/

/-- `ConstantsRegistry::toLower` (per-character `std::tolower`). -/
def toLowerStr (s : String) : String := ⟨s.toList.map Char.toLower⟩

/-- The constants registered in `ConstantsRegistry`'s constructor, keyed in
lowercase.  The numeric payloads embed the decimal literals of
`constants.hpp` exactly (binary64 rounds them; no claim reads a constant's
value). -/
def constantsList : List (String × Q) :=
  [("pi",    Q.mk' 3141592653589793238462643383279502884 (10 ^ 36)),
   ("e",     Q.mk' 2718281828459045235360287471352662498 (10 ^ 36)),
   ("phi",   Q.mk' 1618033988749894848204586834365638118 (10 ^ 36)),
   ("sqrt2", Q.mk' 1414213562373095048801688724209698079 (10 ^ 36)),
   ("sqrt3", Q.mk' 1732050807568877293527446341505872367 (10 ^ 36)),
   ("ln2",   Q.mk' 693147180559945309417232121458176568 (10 ^ 36)),
   ("ln10",  Q.mk' 2302585092994045684017991454684364208 (10 ^ 36)),
   ("goldenratio", Q.mk' 1618033988749894848204586834365638118 (10 ^ 36))]

def constLookup : List (String × Q) → String → Option Q
  | [], _ => none
  | (k, v) :: rest, name => if k = name then some v else constLookup rest name

/-- `ConstantsRegistry::hasConstant` (case-insensitive). -/
def hasConstant (name : String) : Bool :=
  (constLookup constantsList (toLowerStr name)).isSome

/-- `ConstantsRegistry::getConstant`. -/
def getConstant (name : String) : Except String Q :=
  match constLookup constantsList (toLowerStr name) with
  | some v => .ok v
  | none => .error ("Unknown constant: " ++ name)

/-- `FunctionRegistry` arities for the registered entries the claims
exercise (`functions.cpp`: `vdiv` at arity 2, and the HOF set
`map`/`pipe` variadic (−1), `filter` 2, `reduce` 3; `compose` is not
registered).  The registry's other numeric entries are never consulted by
the claims and are omitted. -/
def getArity (name : String) : Option Int :=
  if name = "map" then some (-1)
  else if name = "filter" then some 2
  else if name = "reduce" then some 3
  else if name = "pipe" then some (-1)
  else if name = "vdiv" then some 2
  else none

/-- `FunctionRegistry::hasFunction` (restricted as above). -/
def hasFunction (name : String) : Bool :=
  (getArity name).isSome

/-- The element loop of `vdiv` (zero check, then element-wise divide). -/
def vdivLoop : List Q → List Q → Except String (List Q)
  | [], _ => .ok []
  | _ :: _, [] => .ok []   -- unreachable: callers have equal lengths
  | x :: xs, y :: ys =>
    if y = 0 then .error "vdiv() division by zero"
    else
      match vdivLoop xs ys with
      | .error e => .error e
      | .ok zs => .ok (x / y :: zs)

/-- The `vdiv` builtin registered in `functions.cpp` (lines 325–342):
element-wise vector division, erroring on a zero element of the second
vector. -/
def vdivFunction (args : List Value) : Except String Value :=
  match args with
  | [a, b] =>
    match a.asVector with
    | .error e => .error e
    | .ok v1 =>
      match b.asVector with
      | .error e => .error e
      | .ok v2 =>
        if v1.length ≠ v2.length then
          .error "vdiv() requires vectors of same size"
        else
          match vdivLoop v1 v2 with
          | .error e => .error e
          | .ok zs => .ok (.vector zs)
  | _ => .error "[model] vdiv: registry enforces arity 2"

/-! ## Evaluator (`parser/evaluator.cpp`, `core/functions_hof.cpp`)

The evaluator's one piece of mutable state, the member `env_`, is threaded
explicitly: every step returns `(result, env after the step)`, *also on
the error path* — a C++ exception unwinds without rolling back member
mutations.  (`currentEvaluator_`, the thread-local ambient pointer that
`evaluate` saves/restores around each node, carries no claim-relevant
state in a single-session run and is not part of the state here; the HOF
builtins' `getCurrentEvaluator()` null checks can therefore never fire.)
C++ recursion is unbounded, so every function takes fuel and hands one
less to each callee. -/

abbrev EvalRes := Except String Value × Env

/-- The binary-operator dispatch of `Evaluator::evaluateBinaryOp` after
both operands are evaluated (`evaluator.cpp` lines 96–158): arithmetic per
`Value`'s operators, comparisons only for Number/Number returning
`1.0`/`0.0`. -/
def applyBinOp (op : BinOp) (l r : Value) : Except String Value :=
  match op with
  | .add => valueAdd l r
  | .subtract => valueSub l r
  | .multiply => valueMul l r
  | .divide => valueDiv l r
  | .power => valuePow l r
  | .gt =>
    match l, r with
    | .num a, .num b => .ok (.num (if Q.blt b a then 1 else 0))
    | _, _ => .error "Comparison operators currently only support numbers"
  | .lt =>
    match l, r with
    | .num a, .num b => .ok (.num (if Q.blt a b then 1 else 0))
    | _, _ => .error "Comparison operators currently only support numbers"
  | .gte =>
    match l, r with
    | .num a, .num b => .ok (.num (if Q.ble b a then 1 else 0))
    | _, _ => .error "Comparison operators currently only support numbers"
  | .lte =>
    match l, r with
    | .num a, .num b => .ok (.num (if Q.ble a b then 1 else 0))
    | _, _ => .error "Comparison operators currently only support numbers"
  | .eqOp =>
    match l, r with
    | .num a, .num b => .ok (.num (if a = b then 1 else 0))
    | _, _ => .error "Comparison operators currently only support numbers"
  | .neqOp =>
    match l, r with
    | .num a, .num b => .ok (.num (if a ≠ b then 1 else 0))
    | _, _ => .error "Comparison operators currently only support numbers"

/-- The parameter-binding loop of `Evaluator::applyFunction`
(`callEnv.define(params[i], args[i])`; lengths are equal because arity was
checked). -/
def bindParams : Env → List String → List Value → Except String Env
  | env, [], _ => .ok env
  | env, _ :: _, [] => .ok env   -- unreachable: arity checked by the caller
  | env, p :: ps, a :: rest =>
    match envDefine env p a with
    | .error e => .error e
    | .ok env' => bindParams env' ps rest

/-- `mapFunction`'s collection-gathering loop: every argument after the
function must be a vector. -/
def getVectors : List Value → Except String (List (List Q))
  | [] => .ok []
  | a :: rest =>
    match a with
    | .vector v =>
      match getVectors rest with
      | .error e => .error e
      | .ok vs => .ok (v :: vs)
    | _ => .error "map arguments must be vectors"

mutual

/-- `Evaluator::evaluate`'s dispatch over node kinds (post-order). -/
def evalNode : Nat → Env → AST → EvalRes
  | 0, env, _ => (.error "[model] evaluator fuel exhausted", env)
  | n + 1, env, node =>
    match node with
    | .number v => (.ok (.num v), env)
    | .binary op l r =>
      match evalNode n env l with
      | (.error e, env1) => (.error e, env1)
      | (.ok lv, env1) =>
        match evalNode n env1 r with
        | (.error e, env2) => (.error e, env2)
        | (.ok rv, env2) => (applyBinOp op lv rv, env2)
    | .unary .negate o =>
      match evalNode n env o with
      | (.error e, env1) => (.error e, env1)
      | (.ok v, env1) => (valueNeg v, env1)
    | .call name args => evalCall n env name args
    | .complexLit re im => (.ok (.complex re im), env)
    | .vectorLit elems =>
      match evalNumElems n "Vector elements must be numbers" env elems with
      | (.error e, env1) => (.error e, env1)
      | (.ok qs, env1) => (.ok (.vector qs), env1)
    | .matrixLit rows =>
      if rows.isEmpty then (.error "Matrix cannot be empty", env)
      else
        let numRows := rows.length
        let numCols := (rows.headD []).length
        match evalMatData n env rows with
        | (.error e, env1) => (.error e, env1)
        | (.ok qs, env1) =>
          -- the Matrix constructor's size check (`matrix.cpp`)
          if qs.length ≠ numRows * numCols then
            (.error ("Matrix data size mismatch: expected "
              ++ toString (numRows * numCols) ++ " elements, got "
              ++ toString qs.length), env1)
          else (.ok (.matrix numRows numCols qs), env1)
    | .varDecl name init =>
      match evalNode n env init with
      | (.error e, env1) => (.error e, env1)
      | (.ok v, env1) =>
        match envDefine env1 name v with
        | .error e => (.error e, env1)
        | .ok env2 => (.ok v, env2)
    | .varRef name =>
      match envLookup env name with
      | some v => (.ok v, env)
      | none =>
        if hasConstant name then
          match constLookup constantsList (toLowerStr name) with
          | some v => (.ok (.num v), env)
          | none => (.error "[model] unreachable", env)
        else (.error ("Undefined variable or constant: " ++ name), env)
    | .lambda params body => (.ok (.func params body env), env)

/-- `Evaluator::evaluateFunctionCall`: constants (zero-arg) first, then a
function-valued variable, then the builtin registry with its arity
check. -/
def evalCall : Nat → Env → String → List AST → EvalRes
  | 0, env, _, _ => (.error "[model] evaluator fuel exhausted", env)
  | n + 1, env, name, argNodes =>
    if argNodes.isEmpty && hasConstant name then
      match constLookup constantsList (toLowerStr name) with
      | some v => (.ok (.num v), env)
      | none => (.error "[model] unreachable", env)
    else
      match envLookup env name with
      | some (.func params body closure) =>
        match evalArgs n env argNodes with
        | (.error e, env1) => (.error e, env1)
        | (.ok args, env1) => applyFun n params body closure args env1
      | _ =>
        -- variable absent, or bound to a non-function: builtin registry
        if ¬hasFunction name then
          (.error ("Unknown function or constant: " ++ name), env)
        else
          match evalArgs n env argNodes with
          | (.error e, env1) => (.error e, env1)
          | (.ok args, env1) =>
            match getArity name with
            | some a =>
              if 0 ≤ a ∧ (args.length : Int) ≠ a then
                (.error ("Function " ++ name ++ " expects " ++ toString a
                  ++ " arguments, got " ++ toString args.length), env1)
              else callBuiltin n name args env1
            | none => (.error "[model] unreachable", env1)

/-- Left-to-right argument evaluation (the `for (argNode : argNodes)`
loops of `evaluateFunctionCall`). -/
def evalArgs : Nat → Env → List AST → Except String (List Value) × Env
  | 0, env, _ => (.error "[model] evaluator fuel exhausted", env)
  | _ + 1, env, [] => (.ok [], env)
  | n + 1, env, a :: rest =>
    match evalNode n env a with
    | (.error e, env1) => (.error e, env1)
    | (.ok v, env1) =>
      match evalArgs n env1 rest with
      | (.error e, env2) => (.error e, env2)
      | (.ok vs, env2) => (.ok (v :: vs), env2)

/-- The element loops of `evaluateVectorLiteral` / `evaluateMatrixLiteral`:
each element must evaluate to a Number (`msg` is the respective error). -/
def evalNumElems : Nat → String → Env → List AST → Except String (List Q) × Env
  | 0, _, env, _ => (.error "[model] evaluator fuel exhausted", env)
  | _ + 1, _, env, [] => (.ok [], env)
  | n + 1, msg, env, a :: rest =>
    match evalNode n env a with
    | (.error e, env1) => (.error e, env1)
    | (.ok v, env1) =>
      match v with
      | .num q =>
        match evalNumElems n msg env1 rest with
        | (.error e, env2) => (.error e, env2)
        | (.ok qs, env2) => (.ok (q :: qs), env2)
      | _ => (.error msg, env1)

/-- Row-major flattening loop of `evaluateMatrixLiteral`. -/
def evalMatData : Nat → Env → List (List AST) → Except String (List Q) × Env
  | 0, env, _ => (.error "[model] evaluator fuel exhausted", env)
  | _ + 1, env, [] => (.ok [], env)
  | n + 1, env, row :: rest =>
    match evalNumElems n "Matrix elements must be numbers" env row with
    | (.error e, env1) => (.error e, env1)
    | (.ok qs, env1) =>
      match evalMatData n env1 rest with
      | (.error e, env2) => (.error e, env2)
      | (.ok qs', env2) => (.ok (qs ++ qs'), env2)

/-- `Evaluator::applyFunction`: arity check, `callEnv` = copy of the
captured closure plus parameter bindings, evaluate the body with `env_`
swapped to `callEnv`, restore `env_` after a successful evaluation.  On an
error exit nothing restores `env_` (there is no try/catch here), so the
caller's environment is replaced by whatever the body evaluation left
behind. -/
def applyFun : Nat → List String → AST → Env → List Value → Env → EvalRes
  | 0, _, _, _, _, env => (.error "[model] evaluator fuel exhausted", env)
  | n + 1, params, body, closure, args, env =>
    if args.length ≠ params.length then
      (.error ("Function expects " ++ toString params.length
        ++ " arguments, got " ++ toString args.length), env)
    else
      match bindParams closure params args with
      | .error e => (.error e, env)
      | .ok callEnv =>
        match evalNode n callEnv body with
        | (.ok v, _) => (.ok v, env)
        | (.error e, envBody) => (.error e, envBody)

/-- `FunctionRegistry` dispatch for the registered builtins the claims
exercise. -/
def callBuiltin : Nat → String → List Value → Env → EvalRes
  | 0, _, _, env => (.error "[model] evaluator fuel exhausted", env)
  | n + 1, name, args, env =>
    if name = "map" then mapBuiltin n args env
    else if name = "filter" then filterBuiltin n args env
    else if name = "reduce" then reduceBuiltin n args env
    else if name = "pipe" then pipeBuiltin n args env
    else if name = "vdiv" then (vdivFunction args, env)
    else (.error ("[model] builtin " ++ name ++ " not modelled"), env)

/-- `mapFunction` (`functions_hof.cpp` lines 19–77). -/
def mapBuiltin : Nat → List Value → Env → EvalRes
  | 0, _, env => (.error "[model] evaluator fuel exhausted", env)
  | n + 1, args, env =>
    if args.length < 2 then
      (.error "map requires at least 2 arguments: function and collection(s)", env)
    else
      match args with
      | [] => (.error "[model] unreachable", env)
      | f :: colls =>
        match f with
        | .func params body closure =>
          match getVectors colls with
          | .error e => (.error e, env)
          | .ok collections =>
            let minLen := collections.foldl (fun m c => Nat.min m c.length)
              (2 ^ 64 - 1)
            if params.length ≠ collections.length then
              (.error ("Function arity (" ++ toString params.length
                ++ ") must match number of collections ("
                ++ toString collections.length ++ ")"), env)
            else
              let argLists := (List.range minLen).map fun i =>
                collections.map fun c => Value.num (c.getD i 0)
              match mapLoop n params body closure argLists env with
              | (.error e, env1) => (.error e, env1)
              | (.ok qs, env1) => (.ok (.vector qs), env1)
        | _ => (.error "First argument to map must be a function", env)

/-- The per-element application loop of `mapFunction` (each result must be
a number). -/
def mapLoop : Nat → List String → AST → Env → List (List Value) → Env →
    Except String (List Q) × Env
  | 0, _, _, _, _, env => (.error "[model] evaluator fuel exhausted", env)
  | _ + 1, _, _, _, [], env => (.ok [], env)
  | n + 1, params, body, closure, fa :: rest, env =>
    match applyFun n params body closure fa env with
    | (.error e, env1) => (.error e, env1)
    | (.ok r, env1) =>
      match r with
      | .num q =>
        match mapLoop n params body closure rest env1 with
        | (.error e, env2) => (.error e, env2)
        | (.ok qs, env2) => (.ok (q :: qs), env2)
      | _ => (.error "map function must return numbers", env1)

/-- `filterFunction` (`functions_hof.cpp` lines 84–133). -/
def filterBuiltin : Nat → List Value → Env → EvalRes
  | 0, _, env => (.error "[model] evaluator fuel exhausted", env)
  | n + 1, args, env =>
    if args.length ≠ 2 then
      (.error "filter requires 2 arguments: predicate and collection", env)
    else
      match args with
      | [f, coll] =>
        match f with
        | .func params body closure =>
          match coll with
          | .vector v =>
            if params.length ≠ 1 then
              (.error "filter predicate must take exactly 1 argument", env)
            else
              match filterLoop n params body closure v env with
              | (.error e, env1) => (.error e, env1)
              | (.ok qs, env1) => (.ok (.vector qs), env1)
          | _ => (.error "Second argument to filter must be a vector", env)
        | _ => (.error "First argument to filter must be a function", env)
      | _ => (.error "[model] unreachable", env)

/-- The per-element predicate loop of `filterFunction` (keep the element
when the numeric result is non-zero). -/
def filterLoop : Nat → List String → AST → Env → List Q → Env →
    Except String (List Q) × Env
  | 0, _, _, _, _, env => (.error "[model] evaluator fuel exhausted", env)
  | _ + 1, _, _, _, [], env => (.ok [], env)
  | n + 1, params, body, closure, x :: xs, env =>
    match applyFun n params body closure [.num x] env with
    | (.error e, env1) => (.error e, env1)
    | (.ok r, env1) =>
      match r with
      | .num q =>
        match filterLoop n params body closure xs env1 with
        | (.error e, env2) => (.error e, env2)
        | (.ok qs, env2) =>
          if q ≠ 0 then (.ok (x :: qs), env2) else (.ok (qs), env2)
      | _ => (.error "filter predicate must return a number", env1)

/-- `reduceFunction` (`functions_hof.cpp` lines 140–194). -/
def reduceBuiltin : Nat → List Value → Env → EvalRes
  | 0, _, env => (.error "[model] evaluator fuel exhausted", env)
  | n + 1, args, env =>
    if args.length ≠ 3 then
      (.error "reduce requires 3 arguments: function, initial value, and collection", env)
    else
      match args with
      | [f, init, coll] =>
        match f with
        | .func params body closure =>
          match init with
          | .num acc0 =>
            match coll with
            | .vector v =>
              if params.length ≠ 2 then
                (.error "reduce function must take exactly 2 arguments", env)
              else
                match reduceLoop n params body closure acc0 v env with
                | (.error e, env1) => (.error e, env1)
                | (.ok q, env1) => (.ok (.num q), env1)
            | _ => (.error "Third argument to reduce must be a vector", env)
          | _ => (.error "reduce initial value must be a number", env)
        | _ => (.error "First argument to reduce must be a function", env)
      | _ => (.error "[model] unreachable", env)

/-- The accumulator loop of `reduceFunction` (each result must be a
number). -/
def reduceLoop : Nat → List String → AST → Env → Q → List Q → Env →
    Except String Q × Env
  | 0, _, _, _, _, _, env => (.error "[model] evaluator fuel exhausted", env)
  | _ + 1, _, _, _, acc, [], env => (.ok acc, env)
  | n + 1, params, body, closure, acc, x :: xs, env =>
    match applyFun n params body closure [.num acc, .num x] env with
    | (.error e, env1) => (.error e, env1)
    | (.ok r, env1) =>
      match r with
      | .num q => reduceLoop n params body closure q xs env1
      | _ => (.error "reduce function must return a number", env1)

/-- `pipeFunction` (`functions_hof.cpp` lines 252–284). -/
def pipeBuiltin : Nat → List Value → Env → EvalRes
  | 0, _, env => (.error "[model] evaluator fuel exhausted", env)
  | n + 1, args, env =>
    if args.length < 2 then
      (.error "pipe requires at least 2 arguments: value and function(s)", env)
    else
      match args with
      | [] => (.error "[model] unreachable", env)
      | a0 :: fs => pipeLoop n a0 fs env

/-- The left-to-right application loop of `pipeFunction` (every later
argument must be a unary function). -/
def pipeLoop : Nat → Value → List Value → Env → EvalRes
  | 0, _, _, env => (.error "[model] evaluator fuel exhausted", env)
  | _ + 1, cur, [], env => (.ok cur, env)
  | n + 1, cur, f :: fs, env =>
    match f with
    | .func params body closure =>
      if params.length ≠ 1 then (.error "pipe only supports unary functions", env)
      else
        match applyFun n params body closure [cur] env with
        | (.error e, env1) => (.error e, env1)
        | (.ok r, env1) => pipeLoop n r fs env1
    | _ => (.error "pipe arguments after the first must be functions", env)

end

/-- Ample fuel for the claims' concrete programs. -/
def bigFuel : Nat := 1000

/-- One shot of `main.cpp`'s `eval` on a persistent environment: lexer →
parser → `evaluateAndSave` on the session evaluator (`evaluateAndSave`
only retains the AST so lambda bodies outlive the call, then evaluates).
`main.cpp` catches any exception and reports it while the environment
persists as the evaluation left it. -/
def sessionEval (env : Env) (source : String) : EvalRes :=
  match tokenize source with
  | .error e => (.error e, env)
  | .ok tks =>
    match parse tks with
    | .error e => (.error e, env)
    | .ok ast => evalNode bigFuel env ast

/-- `sessionEval` over the spec-modelled full lexer (see `LexerSpec`). -/
def sessionEvalFull (env : Env) (source : String) : EvalRes :=
  match LexerSpec.tokenizeFull source with
  | .error e => (.error e, env)
  | .ok tks =>
    match parse tks with
    | .error e => (.error e, env)
    | .ok ast => evalNode bigFuel env ast

/-- `main.cpp`'s `reset`: `globalEvaluator.environment().clear()`. -/
def resetSession (_env : Env) : Env := []

/-! ## Theorems on the claims -/

/-- Claim C7: precedence and associativity through the full pipeline:
`2 + 3 * 4` evaluates to `14`, `2 ^ 3 ^ 2` to `512` (power is
right-associative), `--5` to `5` (unary minus nests), `(2+3)*4` to `20`.
All four texts lie in the fragment the shipped lexer scans, so this is the
unmodified `lexer.cpp` → `parser.cpp` → `evaluator.cpp` pipeline. -/
theorem claim_C7_precedence_associativity :
    sessionEval [] "2 + 3 * 4" = (.ok (.num 14), [])
    ∧ sessionEval [] "2 ^ 3 ^ 2" = (.ok (.num 512), [])
    ∧ sessionEval [] "--5" = (.ok (.num 5), [])
    ∧ sessionEval [] "(2+3)*4" = (.ok (.num 20), []) :=
  ⟨rfl, rfl, rfl, rfl⟩

/-- Claim C2 (code bug): the shipped `lexer.cpp` has no scanning for `=` (or
the `let` keyword), so the session example promised by the spec and by the
doc comment of `main.cpp`'s `eval` ("Module.eval(\"let x = 5\") → \"5\";
Module.eval(\"x + 10\") → \"15\"") dies in the lexer: `eval("let x = 5")`
returns the lexical error `Unexpected character: =` and binds nothing.
With the Phase‑4A scanning restored from the spec (`LexerSpec`), the rest
of the shipped pipeline delivers exactly the claimed behavior: `let x = 5`
then `x + 10` yields `15`, and after `reset` the reference `x` yields the
unresolved-name error. -/
theorem claim_C2_session_persistence :
    sessionEval [] "let x = 5" = (.error "Unexpected character: =", [])
    ∧ sessionEvalFull [] "let x = 5" = (.ok (.num 5), [("x", .num 5)])
    ∧ sessionEvalFull [("x", .num 5)] "x + 10" = (.ok (.num 15), [("x", .num 5)])
    ∧ sessionEvalFull (resetSession [("x", .num 5)]) "x" =
        (.error "Undefined variable or constant: x", []) :=
  ⟨rfl, rfl, rfl, rfl⟩

/-- Claim C3 (code bug): the HOF example texts of the spec cannot be
tokenized by the shipped `lexer.cpp` (they die at `=`, the first character
of `=>`), although `functions_hof.cpp` fully implements map/filter/reduce.
With the Phase‑4A scanning restored from the spec (`LexerSpec`), the
shipped parser, evaluator and HOF builtins produce exactly the claimed
values: `map(x => x*2, [1,2,3]) = [2,4,6]`,
`reduce((a,b)=>a+b, 0, [1,2,3,4]) = 10`,
`filter(x => x > 2, [1,2,3,4]) = [3,4]`. -/
theorem claim_C3_hof_examples :
    sessionEval [] "map(x => x*2, [1,2,3])" =
      (.error "Unexpected character: =", [])
    ∧ (sessionEvalFull [] "map(x => x*2, [1,2,3])").1 = .ok (.vector [2, 4, 6])
    ∧ (sessionEvalFull [] "reduce((a,b)=>a+b, 0, [1,2,3,4])").1 = .ok (.num 10)
    ∧ (sessionEvalFull [] "filter(x => x > 2, [1,2,3,4])").1 =
        .ok (.vector [3, 4]) :=
  ⟨rfl, rfl, rfl, rfl⟩

/-- Claim C6 (code bug): `Evaluator::applyFunction` restores `env_` only on
the success path; when the body evaluation throws, the call environment
(with the parameter bindings) is left in place.  Concretely: applying
`Function{params = [x], body = zz, closure = {y ↦ 7}}` to `[1]` from an
evaluator whose environment is `{y ↦ 7}` fails with the unresolved-name
error for `zz` and leaves `env_ = {x ↦ 1, y ↦ 7}` — not the defining
environment.  At session level (full lexer restored from the spec): after
`let y = 7` and `let f = x => 1/0`, the failing call `f(1)` erases the
previously-declared binding `f` from the persistent environment. -/
theorem claim_C6_env_not_restored_on_error :
    applyFun 10 ["x"] (.varRef "zz") [("y", .num 7)] [.num 1] [("y", .num 7)] =
      (.error "Undefined variable or constant: zz",
       [("x", .num 1), ("y", .num 7)])
    ∧ [(("x" : String), Value.num 1), ("y", Value.num 7)] ≠ [("y", Value.num 7)]
    ∧ sessionEvalFull
        [("f", .func ["x"] (.binary .divide (.number 1) (.number 0))
            [("y", .num 7)]),
         ("y", .num 7)] "f(1)" =
        (.error "Division by zero", [("x", .num 1), ("y", .num 7)])
    ∧ envHas [(("x" : String), Value.num 1), ("y", Value.num 7)] "f" = false :=
  ⟨rfl, by simp, rfl, rfl⟩

/-- Claim C4, counterexample: the claim asserts that subtraction broadcasts
a scalar over a matrix (`s - M` and `M - s` defined), but
`Value::operator-` has no scalar/matrix case, so both fall through to the
type error. -/
theorem claim_C4_counterexample :
    valueSub (.num 1) (.matrix 1 1 [2]) = .error "Incompatible types for subtraction"
    ∧ valueSub (.matrix 1 1 [2]) (.num 1) =
        .error "Incompatible types for subtraction" :=
  ⟨rfl, rfl⟩

/-- Claim C4 as amended: `+` and `*` broadcast a scalar over vectors and
matrices in all four orders; `-` broadcasts a scalar only with vectors and
raises a type error with matrices; division broadcasts only with a scalar
denominator (`v / s`, `M / s`, each erroring at `s = 0`), while a scalar
numerator over a vector or matrix is a type error. -/
theorem claim_C4_broadcast_amended (s : Q) (v : List Q) (r c : Nat) (d : List Q) :
    (valueAdd (.num s) (.vector v) = .ok (.vector (v.map (· + s)))
     ∧ valueAdd (.vector v) (.num s) = .ok (.vector (v.map (· + s)))
     ∧ valueAdd (.num s) (.matrix r c d) = .ok (.matrix r c (d.map (· + s)))
     ∧ valueAdd (.matrix r c d) (.num s) = .ok (.matrix r c (d.map (· + s))))
    ∧ (valueSub (.num s) (.vector v) = .ok (.vector (v.map (s - ·)))
     ∧ valueSub (.vector v) (.num s) = .ok (.vector (v.map (· - s)))
     ∧ valueSub (.num s) (.matrix r c d) = .error "Incompatible types for subtraction"
     ∧ valueSub (.matrix r c d) (.num s) = .error "Incompatible types for subtraction")
    ∧ (valueMul (.num s) (.vector v) = .ok (.vector (v.map (· * s)))
     ∧ valueMul (.vector v) (.num s) = .ok (.vector (v.map (· * s)))
     ∧ valueMul (.num s) (.matrix r c d) = .ok (.matrix r c (d.map (· * s)))
     ∧ valueMul (.matrix r c d) (.num s) = .ok (.matrix r c (d.map (· * s))))
    ∧ (valueDiv (.vector v) (.num s) =
        (if s = 0 then .error "Division by zero in vector division"
         else .ok (.vector (v.map (· * ((1 : Q) / s)))))
     ∧ valueDiv (.matrix r c d) (.num s) =
        (if s = 0 then .error "Division by zero in matrix division"
         else .ok (.matrix r c (d.map (· * ((1 : Q) / s)))))
     ∧ valueDiv (.num s) (.vector v) = .error "Incompatible types for division"
     ∧ valueDiv (.num s) (.matrix r c d) = .error "Incompatible types for division") :=
  ⟨⟨rfl, rfl, rfl, rfl⟩, ⟨rfl, rfl, rfl, rfl⟩, ⟨rfl, rfl, rfl, rfl⟩,
   ⟨rfl, rfl, rfl, rfl⟩⟩

/-- The element loop of `vdiv` hits a zero element of the second vector
(given equal lengths) and raises the division error. -/
theorem vdivLoop_zero : ∀ (v1 v2 : List Q), v1.length = v2.length →
    (0 : Q) ∈ v2 → vdivLoop v1 v2 = .error "vdiv() division by zero" := by
  intro v1
  induction v1 with
  | nil =>
    intro v2 hlen hmem
    cases v2 with
    | nil => simp at hmem
    | cons y ys => simp at hlen
  | cons x xs ih =>
    intro v2 hlen hmem
    cases v2 with
    | nil => simp at hmem
    | cons y ys =>
      by_cases hy : y = 0
      · simp [vdivLoop, hy]
      · have hmem' : (0 : Q) ∈ ys := by
          rcases List.mem_cons.mp hmem with h | h
          · exact absurd h.symm hy
          · exact h
        have hlen' : xs.length = ys.length := by simpa using hlen
        simp [vdivLoop, hy, ih ys hlen' hmem']

/-- Claim C8: dividing by exact zero errors rather than producing
infinity.  `5/0` raises `Division by zero` through the full pipeline;
`Complex::operator/` errors whenever the denominator has zero magnitude
(`c² + d² = 0`); the `vdiv` builtin errors whenever vectors of equal
length have a zero element in the divisor. -/
theorem claim_C8_division_by_zero :
    sessionEval [] "5/0" = (.error "Division by zero", [])
    ∧ (∀ ar ai br bi : Q, br * br + bi * bi = 0 →
        valueDiv (.complex ar ai) (.complex br bi) =
          .error "Division by zero in complex division")
    ∧ (∀ v1 v2 : List Q, v1.length = v2.length → (0 : Q) ∈ v2 →
        vdivFunction [.vector v1, .vector v2] =
          .error "vdiv() division by zero") := by
  refine ⟨rfl, ?_, ?_⟩
  · intro ar ai br bi h
    simp [valueDiv, complexDiv, h]
  · intro v1 v2 hlen hmem
    simp [vdivFunction, Value.asVector, hlen, vdivLoop_zero v1 v2 hlen hmem]

/-- Witness for C8 at concrete inputs: `1 / (0+0i)` and
`vdiv([1,2],[1,0])`. -/
theorem claim_C8_witness :
    valueDiv (.complex 1 0) (.complex 0 0) =
      .error "Division by zero in complex division"
    ∧ vdivFunction [.vector [1, 2], .vector [1, 0]] =
      .error "vdiv() division by zero" :=
  ⟨claim_C8_division_by_zero.2.1 1 0 0 0 (by decide),
   claim_C8_division_by_zero.2.2 [1, 2] [1, 0] (by decide) (by decide)⟩

/-- Claim C9: each comparison operator on two Numbers returns `Number 1.0`
when the comparison holds and `Number 0.0` otherwise (the rational order
spelled out by cross-multiplication on the exact representation), and on
every other pair of operand kinds raises the comparison type error. -/
theorem claim_C9_comparisons :
    (∀ a b : Q,
      applyBinOp .gt (.num a) (.num b) =
        .ok (.num (if b.n * a.d < a.n * b.d then 1 else 0))
      ∧ applyBinOp .lt (.num a) (.num b) =
        .ok (.num (if a.n * b.d < b.n * a.d then 1 else 0))
      ∧ applyBinOp .gte (.num a) (.num b) =
        .ok (.num (if b.n * a.d ≤ a.n * b.d then 1 else 0))
      ∧ applyBinOp .lte (.num a) (.num b) =
        .ok (.num (if a.n * b.d ≤ b.n * a.d then 1 else 0))
      ∧ applyBinOp .eqOp (.num a) (.num b) =
        .ok (.num (if a = b then 1 else 0))
      ∧ applyBinOp .neqOp (.num a) (.num b) =
        .ok (.num (if a ≠ b then 1 else 0)))
    ∧ (∀ op ∈ [BinOp.gt, .lt, .gte, .lte, .eqOp, .neqOp], ∀ l r : Value,
        ¬(l.isNumber = true ∧ r.isNumber = true) →
        applyBinOp op l r =
          .error "Comparison operators currently only support numbers") := by
  constructor
  · intro a b
    refine ⟨?_, ?_, ?_, ?_, ?_, ?_⟩ <;> simp [applyBinOp, Q.blt, Q.ble]
  · intro op hop l r hnum
    simp only [List.mem_cons, List.not_mem_nil, or_false] at hop
    rcases hop with rfl | rfl | rfl | rfl | rfl | rfl <;>
      cases l <;> cases r <;> simp_all [applyBinOp, Value.isNumber]

/-- Witness for C9's type-error branch: `>` applied to a Vector and a
Number. -/
theorem claim_C9_witness :
    applyBinOp .gt (.vector []) (.num 0) =
      .error "Comparison operators currently only support numbers" :=
  claim_C9_comparisons.2 .gt (by simp) (.vector []) (.num 0)
    (by simp [Value.isNumber])

/-- When the parameter names are distinct and none of them is already
bound in the starting environment, the binding loop of `applyFunction`
succeeds and produces exactly that environment extended with one binding
per parameter. -/
theorem bindParams_ok : ∀ (ps : List String) (vs : List Value) (env : Env),
    ps.Nodup → (∀ p ∈ ps, envHas env p = false) →
    bindParams env ps vs = .ok ((ps.zip vs).reverse ++ env) := by
  intro ps
  induction ps with
  | nil => intro vs env _ _; cases vs <;> simp [bindParams]
  | cons p ps ih =>
    intro vs env hnd hfree
    cases vs with
    | nil => simp [bindParams]
    | cons a vs =>
      have hp : envHas env p = false := hfree p (by simp)
      have hnd' := hnd
      rw [List.nodup_cons] at hnd'
      have hrec := ih vs ((p, a) :: env) hnd'.2 ?_
      · simp only [bindParams, envDefine, hp, Bool.false_eq_true,
          if_false, hrec]
        simp
      · intro q hq
        have hqp : q ≠ p := fun h => hnd'.1 (h ▸ hq)
        have : envHas env q = false := hfree q (List.mem_cons_of_mem _ hq)
        simp [envHas, envLookup, hqp.symm, this] at this ⊢
        simpa [envHas] using this

/-- Claim C5, counterexample: when the single parameter `x` is already
bound in the captured closure, `applyFunction` does not override it — the
`callEnv.define` call throws the declaration error, so the application
fails instead of evaluating the body with `x ↦ 3` (which would give
`3`). -/
theorem claim_C5_counterexample :
    applyFun 10 ["x"] (.varRef "x") [("x", .num 5)] [.num 3] [] =
      (.error ("Variable " ++ sq ++ "x" ++ sq ++ " already declared"), []) :=
  rfl

/-- Claim C5 as amended: with a matching argument count, `applyFunction`
binds each parameter into a copy of the captured closure via
`Environment::define` — which *fails* with a declaration error whenever a
parameter name is already bound in the closure (it does not shadow) — and
when no parameter collides (and the parameters are distinct) the call
environment is the closure extended with the parameter bindings, the body
is evaluated against it, and the body's outcome (value or error) is the
outcome of the application. -/
theorem claim_C5_apply_amended (n : Nat) (params : List String) (body : AST)
    (closure : Env) (args : List Value) (env : Env)
    (harity : args.length = params.length)
    (hnodup : params.Nodup)
    (hfree : ∀ p ∈ params, envHas closure p = false) :
    bindParams closure params args = .ok ((params.zip args).reverse ++ closure)
    ∧ (applyFun (n + 1) params body closure args env).1 =
        (evalNode n ((params.zip args).reverse ++ closure) body).1 := by
  have hb := bindParams_ok params args closure hnodup hfree
  refine ⟨hb, ?_⟩
  simp only [applyFun, harity, ne_eq, not_true_eq_false, if_false, hb]
  rcases h : evalNode n ((params.zip args).reverse ++ closure) body with ⟨res, envB⟩
  cases res <;> simp

/-- Witness for C5: applying `x => x` (empty closure) to `7`. -/
theorem claim_C5_witness :
    bindParams [] ["x"] [.num 7] = .ok [("x", .num 7)]
    ∧ (applyFun 6 ["x"] (.varRef "x") [] [.num 7] []).1 =
        (evalNode 5 [("x", .num 7)] (.varRef "x")).1 :=
  claim_C5_apply_amended 5 ["x"] (.varRef "x") [] [.num 7] []
    rfl (by simp) (by intro p _; simp [envHas, envLookup])

/-- Every successful run of the lexer loop ends in the explicit
end-of-input token. -/
theorem tokenizeLoop_ends : ∀ (n : Nat) (cs : List Char) (pos : Nat)
    (ts : List Token), tokenizeLoop n cs pos = .ok ts →
    ∃ ts' p, ts = ts' ++ [mkTok .endTok "" p] := by
  intro n cs pos
  induction n, cs, pos using tokenizeLoop.induct with
  | case1 _ _ =>
    intro ts h; simp [tokenizeLoop] at h
  | case2 n cs pos pos1 hsw =>
    intro ts h
    rw [tokenizeLoop, hsw] at h
    simp at h
    exact ⟨[], pos1, by simp [← h]⟩
  | case3 n cs pos pos1 c rest hdig e hscan hsw =>
    intro ts h
    rw [tokenizeLoop, hsw] at h
    simp [hdig, hscan] at h
  | case4 n cs pos pos1 c rest hdig t cs2 pos2 hscan e hrec hsw ih =>
    intro ts h
    rw [tokenizeLoop, hsw] at h
    simp [hdig, hscan, hrec] at h
  | case5 n cs pos pos1 c rest hdig t cs2 pos2 hscan ts0 hrec hsw ih =>
    intro ts h
    rw [tokenizeLoop, hsw] at h
    simp [hdig, hscan, hrec] at h
    obtain ⟨ts', p, hts⟩ := ih ts0 hrec
    exact ⟨t :: ts', p, by simp [← h, hts]⟩
  | case6 n cs pos pos1 c rest hdig halpha t cs2 pos2 hsi e hrec hsw ih =>
    intro ts h
    rw [tokenizeLoop, hsw] at h
    simp [hdig, halpha, hsi, hrec] at h
  | case7 n cs pos pos1 c rest hdig halpha t cs2 pos2 hsi ts0 hrec hsw ih =>
    intro ts h
    rw [tokenizeLoop, hsw] at h
    simp [hdig, halpha, hsi, hrec] at h
    obtain ⟨ts', p, hts⟩ := ih ts0 hrec
    exact ⟨t :: ts', p, by simp [← h, hts]⟩
  | case8 n cs pos pos1 c rest hdig halpha hopc e hscan hsw =>
    intro ts h
    rw [tokenizeLoop, hsw] at h
    simp [hdig, halpha, hopc, hscan] at h
  | case9 n cs pos pos1 c rest hdig halpha hopc t hscan e hrec hsw ih =>
    intro ts h
    rw [tokenizeLoop, hsw] at h
    simp [hdig, halpha, hopc, hscan, hrec] at h
  | case10 n cs pos pos1 c rest hdig halpha hopc t hscan ts0 hrec hsw ih =>
    intro ts h
    rw [tokenizeLoop, hsw] at h
    simp [hdig, halpha, hopc, hscan, hrec] at h
    obtain ⟨ts', p, hts⟩ := ih ts0 hrec
    exact ⟨t :: ts', p, by simp [← h, hts]⟩
  | case11 n cs pos pos1 c rest hdig halpha hopc hsw =>
    intro ts h
    rw [tokenizeLoop, hsw] at h
    simp [hdig, halpha, hopc] at h

/-- Claim C1, counterexample: `%` — listed by the claim (and the spec
§4.1) among the recognized operator tokens — is not scanned by
`Lexer::tokenize`; it raises the unexpected-character error instead. -/
theorem claim_C1_counterexample :
    tokenize "5 % 3" = .error "Unexpected character: %" := rfl

/-- Claim C1 as amended: `tokenize` recognizes only the eight
single-character tokens `+ - * / ^ ( ) ,` (the remaining operators of the
claim's list — `% = > < >= <= == != => [ ] ;` — all begin with an
unscanned character and raise the unexpected-character error, as the
closed instances show), always appends an explicit end-of-input token to a
successful result, and for any other non-whitespace, non-alphanumeric,
non-dot, non-underscore character raises a lexical error that names the
character but does not include its source offset (the error value is
identical for the same character at offset 0 and offset 1). -/
theorem claim_C1_lexer_amended :
    (∀ s ts, tokenize s = .ok ts → ∃ ts' p, ts = ts' ++ [mkTok .endTok "" p])
    ∧ (tokenize "+" = .ok [mkTok .plus "+" 0, mkTok .endTok "" 1]
       ∧ tokenize "-" = .ok [mkTok .minus "-" 0, mkTok .endTok "" 1]
       ∧ tokenize "*" = .ok [mkTok .star "*" 0, mkTok .endTok "" 1]
       ∧ tokenize "/" = .ok [mkTok .slash "/" 0, mkTok .endTok "" 1]
       ∧ tokenize "^" = .ok [mkTok .caret "^" 0, mkTok .endTok "" 1]
       ∧ tokenize "(" = .ok [mkTok .lparen "(" 0, mkTok .endTok "" 1]
       ∧ tokenize ")" = .ok [mkTok .rparen ")" 0, mkTok .endTok "" 1]
       ∧ tokenize "," = .ok [mkTok .comma "," 0, mkTok .endTok "" 1])
    ∧ (tokenize "%" = .error "Unexpected character: %"
       ∧ tokenize "=" = .error "Unexpected character: ="
       ∧ tokenize ">" = .error "Unexpected character: >"
       ∧ tokenize "<" = .error "Unexpected character: <"
       ∧ tokenize ">=" = .error "Unexpected character: >"
       ∧ tokenize "<=" = .error "Unexpected character: <"
       ∧ tokenize "==" = .error "Unexpected character: ="
       ∧ tokenize "!=" = .error "Unexpected character: !"
       ∧ tokenize "=>" = .error "Unexpected character: ="
       ∧ tokenize "[" = .error "Unexpected character: ["
       ∧ tokenize "]" = .error "Unexpected character: ]"
       ∧ tokenize ";" = .error "Unexpected character: ;")
    ∧ (∀ c : Char, c.isDigit = false → c ≠ '.' → c.isAlpha = false →
        c ≠ '_' → isSpaceC c = false → c ≠ '+' → c ≠ '-' → c ≠ '*' →
        c ≠ '/' → c ≠ '^' → c ≠ '(' → c ≠ ')' → c ≠ ',' →
        tokenize (String.mk [c]) =
          .error ("Unexpected character: " ++ c.toString)
        ∧ tokenize (String.mk [' ', c]) =
          .error ("Unexpected character: " ++ c.toString)) := by
  refine ⟨fun s ts h => tokenizeLoop_ends _ _ _ _ h,
    ⟨rfl, rfl, rfl, rfl, rfl, rfl, rfl, rfl⟩,
    ⟨rfl, rfl, rfl, rfl, rfl, rfl, rfl, rfl, rfl, rfl, rfl, rfl⟩, ?_⟩
  intro c h1 h2 h3 h4 h5 h6 h7 h8 h9 h10 h11 h12 h13
  constructor
  · show tokenizeLoop 2 [c] 0 = _
    simp [tokenizeLoop, skipWs, h1, h2, h3, h4, h5, h6, h7, h8, h9, h10,
      h11, h12, h13]
  · show tokenizeLoop 3 [' ', c] 0 = _
    simp [tokenizeLoop, skipWs, show isSpaceC ' ' = true from rfl,
      h1, h2, h3, h4, h5, h6, h7, h8, h9, h10, h11, h12, h13]

/-- Witness for C1 at the concrete character `%` (and a concrete
successful run ending in the end-of-input token). -/
theorem claim_C1_witness :
    (∃ ts' p, [(⟨.number, "2", 2, 0⟩ : Token), mkTok .endTok "" 1] =
        ts' ++ [mkTok .endTok "" p])
    ∧ tokenize (String.mk ['%']) = .error ("Unexpected character: " ++ '%'.toString)
    ∧ tokenize (String.mk [' ', '%']) =
        .error ("Unexpected character: " ++ '%'.toString) :=
  ⟨claim_C1_lexer_amended.1 "2" [⟨.number, "2", 2, 0⟩, mkTok .endTok "" 1] (by decide),
   (claim_C1_lexer_amended.2.2.2 '%' (by decide) (by decide) (by decide)
      (by decide) (by decide) (by decide) (by decide) (by decide) (by decide)
      (by decide) (by decide) (by decide) (by decide)).1,
   (claim_C1_lexer_amended.2.2.2 '%' (by decide) (by decide) (by decide)
      (by decide) (by decide) (by decide) (by decide) (by decide) (by decide)
      (by decide) (by decide) (by decide) (by decide)).2⟩

/-- Claim C10: in `Parser::primary`, the test
`if (match(IDENTIFIER) && previous().lexeme == "i")` consumes the
identifier with `match` even when its lexeme is not `"i"`, both after a
NUMBER token and after a parenthesized expression's `)`; the non-`i`
identifier is silently discarded, so `2 x` (and `(2) x`) parse without
error to the number literal `2`. -/
theorem claim_C10_identifier_discarded :
    (∀ (m : Nat) (v q : Q) (lex name : String) (p1 p2 : Nat)
      (rest : List Token), name ≠ "i" →
      pPrimary (m + 1)
        (⟨.number, lex, v, p1⟩ :: ⟨.identifier, name, q, p2⟩ :: rest) 0 =
        .ok (.number v, 2))
    ∧ (∀ (m : Nat) (v q : Q) (lex name : String) (p0 p1 p2 p3 : Nat)
      (rest : List Token), name ≠ "i" →
      pPrimary (m + 8)
        (mkTok .lparen "(" p0 :: ⟨.number, lex, v, p1⟩ ::
          mkTok .rparen ")" p2 :: ⟨.identifier, name, q, p3⟩ :: rest) 0 =
        .ok (.number v, 4))
    ∧ sessionEval [] "2 x" = (.ok (.num 2), [])
    ∧ sessionEval [] "(2) x" = (.ok (.num 2), []) := by
  refine ⟨?_, ?_, rfl, rfl⟩
  · intro m v q lex name p1 p2 rest hname
    simp [pPrimary, checkT, peekT, hname]
  · intro m v q lex name p0 p1 p2 p3 rest hname
    have hnum : ∀ k, pPrimary (k + 1)
        (mkTok .lparen "(" p0 :: ⟨.number, lex, v, p1⟩ ::
          mkTok .rparen ")" p2 :: ⟨.identifier, name, q, p3⟩ :: rest) 1 =
        .ok (.number v, 2) := by
      intro k; simp [pPrimary, checkT, peekT, mkTok]
    simp [pPrimary, pExpression, pComparison, pComparisonLoop, pAdditive,
      pAdditiveLoop, pTerm, pTermLoop, pFactor, pExponent, tryParams,
      consumeT, checkT, peekT, mkTok, hnum, hname]

/-- Witness for C10 at `name = "x"`. -/
theorem claim_C10_witness :
    pPrimary 1 [⟨.number, "2", 2, 0⟩, ⟨.identifier, "x", 0, 2⟩,
        mkTok .endTok "" 3] 0 = .ok (.number 2, 2)
    ∧ pPrimary 8 [mkTok .lparen "(" 0, ⟨.number, "2", 2, 1⟩,
        mkTok .rparen ")" 2, ⟨.identifier, "x", 0, 4⟩,
        mkTok .endTok "" 5] 0 = .ok (.number 2, 4) :=
  ⟨claim_C10_identifier_discarded.1 0 2 0 "2" "x" 0 2 [mkTok .endTok "" 3]
      (by decide),
   claim_C10_identifier_discarded.2.1 0 2 0 "2" "x" 0 1 2 4
      [mkTok .endTok "" 5] (by decide)⟩

end Achronyme
